import Mathlib

/-!
Shallow embedding of the ourtransform pipeline engine
(src/ourtransform/framework.py and src/ourtransform/utils.py).

Python values are modelled by an inductive universe `PyVal` with a runtime
type function `typeOf`; Python class objects by `PyType` with the
`issubclass` relation actually used by the source (reflexivity,
`bool <= int`, and everything a subclass of `object`).

Exceptions are modelled explicitly: every `do` method of the framework is
embedded as a function returning the post-call state of the element it was
given together with `Option PyExc` (`none` means a normal return).  Because
every `do` in the source returns the very element object it was handed,
the first component of the pair is simultaneously the state of the caller
visible object after the call and the returned value; in-place mutation
performed before an exception is therefore visible in the first component
even when the second component carries an exception, exactly as in Python.
-/

namespace Ourtransform

/-- Model of the Python classes the framework manipulates. -/
inductive PyType
  | noneT
  | boolT
  | intT
  | strT
  | listT
  | dictT
  | objectT
  | elementT
  deriving DecidableEq, Repr

/-- Model of the builtin `issubclass`: reflexive, `bool` is a subclass of
`int`, and every class is a subclass of `object`. -/
def issubclass (a b : PyType) : Bool :=
  a = b || b = PyType.objectT || (a = PyType.boolT && b = PyType.intT)

/-- Printed form of a class object, as it appears inside f-strings. -/
def typeName : PyType → String
  | PyType.noneT => "<class \x27NoneType\x27>"
  | PyType.boolT => "<class \x27bool\x27>"
  | PyType.intT => "<class \x27int\x27>"
  | PyType.strT => "<class \x27str\x27>"
  | PyType.listT => "<class \x27list\x27>"
  | PyType.dictT => "<class \x27dict\x27>"
  | PyType.objectT => "<class \x27object\x27>"
  | PyType.elementT => "<class \x27ourtransform.framework.Element\x27>"

/-- Universe of Python values flowing through `Element.input` and
`Element.output`.  The framework itself never inspects the contents of a
container, only `type(x)`, so list and dict payloads are modelled by flat
integer collections, which is enough to distinguish any two values the
claims mention. -/
inductive PyVal
  | none
  | bool (b : Bool)
  | int (n : Int)
  | str (s : String)
  | list (xs : List Int)
  | dict (kvs : List (String × Int))
  deriving DecidableEq, Repr

/-- Runtime type of a value, the model of `type(x)`. -/
def typeOf : PyVal → PyType
  | PyVal.none => PyType.noneT
  | PyVal.bool _ => PyType.boolT
  | PyVal.int _ => PyType.intT
  | PyVal.str _ => PyType.strT
  | PyVal.list _ => PyType.listT
  | PyVal.dict _ => PyType.dictT

/-- Level of a notice (framework.py lines 10-17), a str-valued enum. -/
inductive Level
  | INFO
  | WARNING
  | ERROR
  deriving DecidableEq, Repr

/-- The string value of a level member, which is what an f-string
interpolation of the str-mixin enum produces. -/
def levelStr : Level → String
  | Level.INFO => "INFO"
  | Level.WARNING => "WARNING"
  | Level.ERROR => "ERROR"

/-- A notice is a weighted message (framework.py lines 19-35). -/
structure Notice where
  msg : String
  level : Level
  deriving DecidableEq, Repr

/-- Model of `Notice.__hash__`: the hash of `f"{self.msg}{self.level}"`,
modelled by the concatenated string itself (an ideal injective hash). -/
def noticeHashStr (nt : Notice) : String :=
  nt.msg ++ levelStr nt.level

/-- Model of `Notice.__eq__`: two notices are equal iff their hashes are. -/
def noticeEq (a b : Notice) : Bool :=
  noticeHashStr a == noticeHashStr b

/-- Python exception classes used by the framework. -/
inductive ExcKind
  | generic
  | typeErr
  | verifierRaised
  | chainNotFound
  deriving DecidableEq, Repr

/-- A raised Python exception: its class and its `str(e)` message. -/
structure PyExc where
  kind : ExcKind
  msg : String
  deriving DecidableEq, Repr

/-- The `_tag` attribute of an element: either a plain value or a callable.
A callable is modelled extensionally by the outcome of invoking it on the
element at read time (the resolved tag, or the message of the exception it
raises).  Tag values themselves are modelled as `Option String`, `none`
standing for Python `None`. -/
inductive TagSpec
  | static (t : Option String)
  | derivedOk (t : Option String)
  | derivedErr (msg : String)
  deriving DecidableEq, Repr

/-- Meta is a structureless record the engine only forwards (framework.py 73-77). -/
inductive Meta
  | mk
  deriving DecidableEq, Repr

/-- An element (framework.py lines 37-71).  `cls` is the printed form of
`type(self)` used in the tag-resolution error message. -/
structure Element where
  id : Option String := Option.none
  cls : String := "<class \x27ourtransform.framework.Element\x27>"
  input : PyVal
  output : PyVal := PyVal.none
  tagSpec : TagSpec := TagSpec.static Option.none
  notices : Finset Notice := ∅
  deriving DecidableEq

/-- Model of `element.notices.add(notice)`. -/
def addNotice (e : Element) (nt : Notice) : Element :=
  { e with notices := insert nt e.notices }

/-- Model of the `Element.tag` property (framework.py lines 55-71): a
callable tag is invoked on the element; if it raises, an ERROR notice is
recorded on the element and a wrapped exception is re-raised (the `Except`
error case).  The first component is the element state after the read. -/
def elementTag (e : Element) : Element × Except String (Option String) :=
  match e.tagSpec with
  | TagSpec.static t => (e, Except.ok t)
  | TagSpec.derivedOk t => (e, Except.ok t)
  | TagSpec.derivedErr err =>
    let msg := "Tag of element " ++ e.cls ++ " could not be resolved: " ++ err
    (addNotice e (Notice.mk msg Level.ERROR), Except.error msg)

/-- Inner message of the `TypeError` raised by
`Changeable.__verify_fn_output__` (framework.py lines 120-127), with the
f-string whitespace elided. -/
def typeCheckInnerMsg (fnName : String) (expected actual : PyType) : String :=
  "For function " ++ fnName ++ ": Expected output type was " ++
    typeName expected ++ " but got " ++ typeName actual ++
    ". Note that you need to declare your function with a return class type!"

/-- Model of `Changeable.__verify_fn_output__` (framework.py lines 112-129):
raises unless the declared return annotation is a subclass of (or equal to)
the runtime type of the produced output; the inner `TypeError` is caught
and re-raised wrapped in a plain `Exception`. -/
def verifyFnOutput (fnName : String) (retAnn : PyType) (outTy : PyType) :
    Option PyExc :=
  if issubclass retAnn outTy then
    Option.none
  else
    Option.some
      (PyExc.mk ExcKind.generic
        ("Could not type check output: " ++ typeCheckInnerMsg fnName retAnn outTy))

/-- Any `do` method: given the element and the optional meta, produce the
state of that element object after the call together with the exception it
raised, if any (`Option.none` = normal return of the element itself). -/
def EventM : Type :=
  Element → Option Meta → Element × Option PyExc

/-- A Transformer function together with the data `inspect.signature`
extracts from it: a printable name and the declared return annotation.
The callable itself takes `element.input`, `element.output` and the meta
and either returns a value or raises. -/
structure TransFn where
  name : String
  f : PyVal → PyVal → Option Meta → Except PyExc PyVal
  retAnn : PyType

/-- Model of `Transformer.do` (framework.py lines 146-154): assigns the
result of the function to `element.output`, then checks the declared
return annotation against the runtime type of that result.  The
assignment happens before the check, so a failing check leaves the
offending value in `element.output`. -/
def transformerDo (t : TransFn) (e : Element) (m : Option Meta) :
    Element × Option PyExc :=
  match t.f e.input e.output m with
  | Except.error exc => (e, Option.some exc)
  | Except.ok v =>
    let e' := { e with output := v }
    (e', verifyFnOutput t.name t.retAnn (typeOf v))

/-- A Transformer wrapped as a chain event. -/
def transformerEvent (t : TransFn) : EventM :=
  fun e m => transformerDo t e m

/-- What a Mutable function returned: the live element it was handed, some
other Element instance, or a non-Element value (of which only the runtime
type is ever consulted, since `__verify_type__` raises before any field
access). -/
inductive MutRet
  | sameElement
  | otherElement (e2 : Element)
  | nonElement (ty : PyType)

/-- Runtime type of the returned object. -/
def mutRetTy : MutRet → PyType
  | MutRet.sameElement => PyType.elementT
  | MutRet.otherElement _ => PyType.elementT
  | MutRet.nonElement ty => ty

/-- The Element whose fields the post-checks of `Mutable.do` read, if the
returned object is an Element at all: the live element for
`MutRet.sameElement`, the other instance for `MutRet.otherElement`. -/
def mutRetFields (live : Element) : MutRet → Option Element
  | MutRet.sameElement => Option.some live
  | MutRet.otherElement e2 => Option.some e2
  | MutRet.nonElement _ => Option.none

/-- A Mutable function: takes the live element and the meta, leaves the
live element in some state (first component) and either raises or returns
an object described by `MutRet`. -/
structure MutFn where
  name : String
  f : Element → Option Meta → Element × Except PyExc MutRet
  retAnn : PyType

/-- The error message prefix plus types of the structural-preservation
check in `Mutable.do` (framework.py lines 179-193). -/
def mutableTypeErrMsg (gave got : PyType) : String :=
  "A mutable can change the data and not the data type: Gave " ++
    typeName gave ++ ", got " ++ typeName got ++ "."

/-- Model of `Mutable.do` (framework.py lines 170-196): deep-copies the
element as a pristine pre-snapshot, runs the function on the live element,
verifies the returned object is an Element and satisfies the return
annotation, then compares the runtime types of `input` and `output`
between the pre-snapshot and the returned object.  In every path the
element handed back to the caller is the live element (`return element`),
never the object the function returned.  The deep copy of the pre-state is
the pure value `e` itself. -/
def mutableDo (mf : MutFn) (e : Element) (m : Option Meta) :
    Element × Option PyExc :=
  match mf.f e m with
  | (e', Except.error exc) => (e', Option.some exc)
  | (e', Except.ok ret) =>
    match mutRetFields e' ret with
    | Option.none =>
      (e', Option.some
        (PyExc.mk ExcKind.generic
          ("Could not verify type of element: Input element not of type Element")))
    | Option.some oe =>
      match verifyFnOutput mf.name mf.retAnn (mutRetTy ret) with
      | Option.some exc => (e', Option.some exc)
      | Option.none =>
        if typeOf e.input ≠ typeOf oe.input then
          (e', Option.some
            (PyExc.mk ExcKind.typeErr
              (mutableTypeErrMsg (typeOf e.input) (typeOf oe.input))))
        else if typeOf e.output ≠ typeOf oe.output then
          (e', Option.some
            (PyExc.mk ExcKind.typeErr
              (mutableTypeErrMsg (typeOf e.output) (typeOf oe.output))))
        else
          (e', Option.none)

/-- A Mutable wrapped as a chain event. -/
def mutableEvent (mf : MutFn) : EventM :=
  fun e m => mutableDo mf e m

/-- A Verifier (framework.py lines 207-231): the wrapped Changeable (field
name keeps the typo of the source) and the verifier function, which may
mutate the element and may raise. -/
structure VerifierS where
  chanegable : EventM
  verifier_fn : Element → Option Meta → Element × Option PyExc

/-- Model of `Verifier.do` (framework.py lines 216-231): run the wrapped
Changeable (its exceptions propagate), then the verifier function; a
`VerifierRaisedException` is downgraded to an ERROR notice, any other
exception propagates. -/
def verifierDo (v : VerifierS) (e : Element) (m : Option Meta) :
    Element × Option PyExc :=
  match v.chanegable e m with
  | (e', Option.some exc) => (e', Option.some exc)
  | (e', Option.none) =>
    match v.verifier_fn e' m with
    | (e'', Option.none) => (e'', Option.none)
    | (e'', Option.some exc) =>
      if exc.kind = ExcKind.verifierRaised then
        (addNotice e''
          (Notice.mk ("Verifier did raise error: " ++ exc.msg) Level.ERROR),
          Option.none)
      else
        (e'', Option.some exc)

/-- Model of `Chain.do` (framework.py lines 242-257), which is also the
behaviour of `AllChain`: run every event in order, threading the element;
the first exception propagates immediately. -/
def chainDo (m : Option Meta) : List EventM → Element → Element × Option PyExc
  | [], e => (e, Option.none)
  | ev :: evs, e =>
    match ev e m with
    | (e', Option.none) => chainDo m evs e'
    | (e', Option.some exc) => (e', Option.some exc)

/-- The notice `AnyChain.do` records for the i-th captured exception. -/
def anyChainNotice (i : Nat) (exc : PyExc) : Notice :=
  Notice.mk
    ("Error when computing AnyChain (" ++ toString i ++ "): " ++ exc.msg)
    Level.ERROR

/-- The loop of `AnyChain.do` (framework.py lines 265-273): try each event
in order on the threaded element; the first success returns immediately
(`Sum.inl`), otherwise the element state after all failed attempts is
returned along with the captured exceptions in order (`Sum.inr`).  A step
that raises after mutating the element in place leaves those mutations in
the threaded element, exactly as in Python where the local variable still
references the same (mutated) object. -/
def anyChainLoop (m : Option Meta) :
    List EventM → Element → Element ⊕ (Element × List PyExc)
  | [], e => Sum.inr (e, [])
  | ev :: evs, e =>
    match ev e m with
    | (e', Option.none) => Sum.inl e'
    | (e', Option.some exc) =>
      match anyChainLoop m evs e' with
      | Sum.inl e'' => Sum.inl e''
      | Sum.inr (e'', excs) => Sum.inr (e'', exc :: excs)

/-- The notice-adding epilogue of `AnyChain.do` (framework.py 275-282):
`for i, e in zip(range(n), exceptions): element.notices.add(...)`. -/
def addAnyChainNotices (e : Element) (excs : List PyExc) : Element :=
  (excs.enum.map (fun p => anyChainNotice p.1 p.2)).foldl addNotice e

/-- Model of `AnyChain.do` (framework.py lines 259-284). -/
def anyChainDo (evs : List EventM) (e : Element) (m : Option Meta) :
    Element × Option PyExc :=
  match anyChainLoop m evs e with
  | Sum.inl e' => (e', Option.none)
  | Sum.inr (e', excs) => (addAnyChainNotices e' excs, Option.none)

/-- A Chain as registered in a Selector: its tag, id, printable class and
its `do` behaviour. -/
structure ChainS where
  cls : String
  id : Option String := Option.none
  tag : Option String := Option.none
  run : EventM

/-- Python `str(x)` for an optional id, used in the selector notice. -/
def idStr : Option String → String
  | Option.none => "None"
  | Option.some s => s

/-- A Selector (framework.py lines 296-314) holds its chains; the dict
built in the constructor is modelled by `selectorChainsGet`. -/
structure Selector where
  chains : List ChainS
  id : Option String := Option.none

/-- Lookup in the dict `{chain.tag: chain}` built by the Selector
constructor: the last registration under a tag wins, as dict insertion
replaces earlier entries. -/
def selectorChainsGet (cs : List ChainS) (k : Option String) : Option ChainS :=
  cs.foldl (fun acc c => if c.tag = k then Option.some c else acc) Option.none

/-- Exceptions that can escape `Selector.select`: the explicit
`ChainNotFoundException`, or whatever the tag resolution raised. -/
inductive SelErr
  | chainNotFound (msg : String)
  | tagError (msg : String)

/-- Model of `Selector.select` (framework.py lines 316-342): resolve the
element tag (which may itself raise), then walk the four-case decision
table over (tag, default chain).  The first component is the element state
after the tag read. -/
def selectorSelect (sel : Selector) (e : Element) :
    Element × Except SelErr ChainS :=
  match elementTag e with
  | (e', Except.error msg) => (e', Except.error (SelErr.tagError msg))
  | (e', Except.ok tg) =>
    match tg, selectorChainsGet sel.chains Option.none with
    | Option.none, Option.none =>
      (e', Except.error
        (SelErr.chainNotFound ("Deafult (None) Chain was not registered.")))
    | Option.none, Option.some dc => (e', Except.ok dc)
    | Option.some t, Option.none =>
      match selectorChainsGet sel.chains (Option.some t) with
      | Option.none =>
        (e', Except.error
          (SelErr.chainNotFound
            ("Chain with tag \x27" ++ t ++ "\x27 was not registered.")))
      | Option.some c => (e', Except.ok c)
    | Option.some t, Option.some dc =>
      match selectorChainsGet sel.chains (Option.some t) with
      | Option.none => (e', Except.ok dc)
      | Option.some c => (e', Except.ok c)

/-- Model of `Selector.do` (framework.py lines 344-373): select the chain,
run it; `ChainNotFoundException` and chain execution failures are
downgraded to ERROR notices, any other exception escaping `select` (tag
resolution failures) is swallowed with no notice added here; the element
is returned in every case. -/
def selectorDo (sel : Selector) (e : Element) (m : Option Meta) : Element :=
  match selectorSelect sel e with
  | (e', Except.error (SelErr.chainNotFound msg)) =>
    addNotice e' (Notice.mk msg Level.ERROR)
  | (e', Except.error (SelErr.tagError _)) => e'
  | (e', Except.ok c) =>
    match c.run e' m with
    | (e'', Option.none) => e''
    | (e'', Option.some exc) =>
      addNotice e''
        (Notice.mk
          ("Chain " ++ c.cls ++ " id:" ++ idStr c.id ++ " raised \x27" ++
            exc.msg ++ "\x27")
          Level.ERROR)

/-- Model of `distribute` (utils.py lines 3-21) before the empty-batch
filter: `batches = [[] for _ in range(n)]`, then
`batches[i % n].append(items[i])` for each index in order. -/
def distributeBatches {α : Type} (items : List α) (n : Nat) : List (List α) :=
  items.enum.foldl
    (fun bs p => bs.set (p.1 % n) (bs.getD (p.1 % n) [] ++ [p.2]))
    (List.replicate n [])

/-- Model of `distribute` (utils.py lines 3-21): round-robin batches with
the empty ones dropped. -/
def distribute {α : Type} (items : List α) (n : Nat) : List (List α) :=
  (distributeBatches items n).filter (fun b => !(b.length == 0))

/-! Concrete data used by the witnesses and counterexamples below. -/

/-- A Transformer function declared `-> list` that returns a dict. -/
def fnListDict : TransFn :=
  { name := ("fn_ld"),
    f := fun _ _ _ => Except.ok (PyVal.dict [(("a"), 1)]),
    retAnn := PyType.listT }

/-- A Transformer function declared `-> dict` that returns a dict. -/
def fnDictDict : TransFn :=
  { name := ("fn_dd"),
    f := fun _ _ _ => Except.ok (PyVal.dict [(("a"), 1)]),
    retAnn := PyType.dictT }

/-- A Transformer function declared `-> bool` that returns the int 5: the
declared annotation is a proper subclass of the runtime type, hence not a
supertype of it. -/
def fnBoolInt : TransFn :=
  { name := ("fn_bi"),
    f := fun _ _ _ => Except.ok (PyVal.int 5),
    retAnn := PyType.boolT }

/-- An element whose input is the dict `{"a": 0}`. -/
def elemDict : Element := { input := PyVal.dict [(("a"), 0)] }

/-- A Mutable function that rewrites `element.input` from a dict to a list
in place and returns the element, declared `-> Element`. -/
def mutFlipInput : MutFn :=
  { name := ("mut_flip"),
    f := fun e _ =>
      ({ e with input := PyVal.list [1] }, Except.ok MutRet.sameElement),
    retAnn := PyType.elementT }

/-- A Mutable function that only changes a dict value of `element.input`
in place and returns the element, declared `-> Element`. -/
def mutBumpValue : MutFn :=
  { name := ("mut_bump"),
    f := fun e _ =>
      ({ e with input := PyVal.dict [(("a"), 2)] }, Except.ok MutRet.sameElement),
    retAnn := PyType.elementT }

/-- A Mutable function that rewrites the live element input to a list but
returns a fresh Element copy of the original, declared `-> Element`: the
post-checks see the fresh copy, the caller gets the live element back. -/
def mutOtherRet : MutFn :=
  { name := ("mut_other"),
    f := fun e _ =>
      ({ e with input := PyVal.list [3] }, Except.ok (MutRet.otherElement e)),
    retAnn := PyType.elementT }

/-- A Changeable event that returns the element untouched. -/
def chOk : EventM := fun e _ => (e, Option.none)

/-- A Verifier whose verifier function raises `VerifierRaisedException`. -/
def verVre : VerifierS :=
  { chanegable := chOk,
    verifier_fn := fun e _ =>
      (e, Option.some (PyExc.mk ExcKind.verifierRaised ("bad value"))) }

/-- A chain registered under tag "a" that succeeds without touching the
element. -/
def chainA : ChainS :=
  { cls := ("<class \x27ourtransform.framework.AllChain\x27>"),
    id := Option.some ("c0"),
    tag := Option.some ("a"),
    run := chOk }

/-- A selector holding only `chainA`. -/
def selA : Selector := { chains := [chainA] }

/-- An element with static tag "a". -/
def elemTagA : Element :=
  { input := PyVal.dict [], tagSpec := TagSpec.static (Option.some ("a")) }

/-- An element whose callable tag raises. -/
def elemTagFail : Element :=
  { input := PyVal.dict [], tagSpec := TagSpec.derivedErr ("boom") }

/-- The nine items of the round-robin example. -/
def itemsNine : List Nat := [1, 2, 3, 4, 5, 6, 7, 8, 9]

/-! Helper lemmas. -/

theorem getLast?_clash {m1 m2 : String} {d1 d2 : List Char} {c1 c2 : Char}
    (h : m1.data ++ d1 = m2.data ++ d2)
    (g1 : d1.getLast? = Option.some c1) (g2 : d2.getLast? = Option.some c2)
    (hne : c1 ≠ c2) : False := by
  have h2 := congrArg List.getLast? h
  rw [List.getLast?_append, List.getLast?_append, g1, g2] at h2
  simp only [Option.or] at h2
  exact hne (Option.some.inj h2)

theorem levelStr_append_inj (m1 m2 : String) (l1 l2 : Level)
    (h : m1 ++ levelStr l1 = m2 ++ levelStr l2) : m1 = m2 ∧ l1 = l2 := by
  have hd : m1.data ++ (levelStr l1).data = m2.data ++ (levelStr l2).data := by
    have h2 := congrArg String.data h
    simpa only [String.data_append] using h2
  cases l1 <;> cases l2 <;> simp only [levelStr] at hd
  case INFO.INFO => exact ⟨String.ext (List.append_inj' hd rfl).1, rfl⟩
  case INFO.WARNING => exact absurd (getLast?_clash hd rfl rfl (by decide)) id
  case INFO.ERROR => exact absurd (getLast?_clash hd rfl rfl (by decide)) id
  case WARNING.INFO => exact absurd (getLast?_clash hd rfl rfl (by decide)) id
  case WARNING.WARNING => exact ⟨String.ext (List.append_inj' hd rfl).1, rfl⟩
  case WARNING.ERROR => exact absurd (getLast?_clash hd rfl rfl (by decide)) id
  case ERROR.INFO => exact absurd (getLast?_clash hd rfl rfl (by decide)) id
  case ERROR.WARNING => exact absurd (getLast?_clash hd rfl rfl (by decide)) id
  case ERROR.ERROR => exact ⟨String.ext (List.append_inj' hd rfl).1, rfl⟩

/-- Claim C7: Notice equality and hashing are determined exactly by the
(message, level) pair: the Python equality (hash comparison of the
concatenated message and level string) holds iff message and level agree,
and a set of notices deduplicates identical diagnostics (inserting an
already-present notice leaves the set unchanged). -/
theorem c7_notice_equality (a b : Notice) (s : Finset Notice) :
    (noticeEq a b = true ↔ (a.msg = b.msg ∧ a.level = b.level)) ∧
    (a ∈ s → insert a s = s) := by
  constructor
  · constructor
    · intro h
      have hs : noticeHashStr a = noticeHashStr b := by
        simpa [noticeEq] using h
      exact levelStr_append_inj a.msg b.msg a.level b.level hs
    · rintro ⟨h1, h2⟩
      simp [noticeEq, noticeHashStr, h1, h2]
  · exact fun h => Finset.insert_eq_self.mpr h

/-- Witness for C7 at concrete notices: two notices with the same text and
level are Python-equal, and inserting a present notice changes nothing. -/
theorem c7_witness :
    Notice.mk ("dup") Level.ERROR ∈ ({Notice.mk ("dup") Level.ERROR} : Finset Notice) ∧
    insert (Notice.mk ("dup") Level.ERROR) ({Notice.mk ("dup") Level.ERROR} : Finset Notice) =
      {Notice.mk ("dup") Level.ERROR} :=
  ⟨by decide,
    (c7_notice_equality (Notice.mk ("dup") Level.ERROR) (Notice.mk ("dup") Level.ERROR)
      {Notice.mk ("dup") Level.ERROR}).2 (by decide)⟩

theorem getD_list_set_self {α : Type} (l : List (List α)) (k : Nat)
    (v : List α) (hk : k < l.length) : (l.set k v).getD k [] = v := by
  induction l generalizing k with
  | nil => exact absurd hk (by simp)
  | cons b t ih =>
    cases k with
    | zero => rfl
    | succ k => exact ih k (by simpa using hk)

theorem getD_list_set_ne {α : Type} (l : List (List α)) (k j : Nat)
    (v : List α) (h : k ≠ j) : (l.set k v).getD j [] = l.getD j [] := by
  induction l generalizing k j with
  | nil => simp
  | cons b t ih =>
    cases k with
    | zero =>
      cases j with
      | zero => exact absurd rfl h
      | succ j => rfl
    | succ k =>
      cases j with
      | zero => rfl
      | succ j => exact ih k j (fun hkj => h (by rw [hkj]))

theorem getD_replicate_nil {α : Type} (n j : Nat) :
    (List.replicate n ([] : List α)).getD j [] = [] := by
  induction n generalizing j with
  | zero => simp
  | succ n ih =>
    cases j with
    | zero => rfl
    | succ j => exact ih j

theorem flatten_replicate_nil {α : Type} (n : Nat) :
    (List.replicate n ([] : List α)).flatten = [] := by
  induction n with
  | zero => rfl
  | succ n ih => simp [ih]

theorem flatten_set_perm {α : Type} (bs : List (List α)) (k : Nat) (x : α)
    (hk : k < bs.length) :
    ((bs.set k (bs.getD k [] ++ [x])).flatten).Perm (bs.flatten ++ [x]) := by
  induction bs generalizing k with
  | nil => exact absurd hk (by simp)
  | cons b t ih =>
    cases k with
    | zero =>
      simp only [List.set, List.getD_cons_zero, List.flatten_cons]
      rw [List.append_assoc, List.append_assoc]
      exact (List.perm_append_comm).append_left b
    | succ k =>
      simp only [List.set, List.getD_cons_succ, List.flatten_cons]
      rw [List.append_assoc]
      exact (ih k (by simpa using hk)).append_left b

theorem distributeBatches_foldl_flatten_perm {α : Type} (n : Nat) (hn : 0 < n)
    (ps : List (Nat × α)) :
    ∀ (bs : List (List α)), bs.length = n →
      ((ps.foldl
          (fun bs p => bs.set (p.1 % n) (bs.getD (p.1 % n) [] ++ [p.2]))
          bs).flatten).Perm (bs.flatten ++ ps.map Prod.snd) := by
  induction ps with
  | nil => intro bs hlen; simp
  | cons p ps ih =>
    intro bs hlen
    have hk : p.1 % n < bs.length := by rw [hlen]; exact Nat.mod_lt _ hn
    rw [List.foldl_cons]
    have h1 := ih (bs.set (p.1 % n) (bs.getD (p.1 % n) [] ++ [p.2]))
      (by rw [List.length_set]; exact hlen)
    refine h1.trans ?_
    have h2 := (flatten_set_perm bs (p.1 % n) p.2 hk).append_right (ps.map Prod.snd)
    refine h2.trans ?_
    rw [List.map_cons, List.append_assoc]
    exact List.Perm.refl _

theorem distributeBatches_foldl_getD {α : Type} (n : Nat) (hn : 0 < n)
    (ps : List (Nat × α)) :
    ∀ (bs : List (List α)), bs.length = n → ∀ (j : Nat),
      (ps.foldl
          (fun bs p => bs.set (p.1 % n) (bs.getD (p.1 % n) [] ++ [p.2]))
          bs).getD j []
        = bs.getD j [] ++ (ps.filter (fun p => p.1 % n == j)).map Prod.snd := by
  induction ps with
  | nil => intro bs hlen j; simp
  | cons p ps ih =>
    intro bs hlen j
    have hk : p.1 % n < bs.length := by rw [hlen]; exact Nat.mod_lt _ hn
    have h1 := ih (bs.set (p.1 % n) (bs.getD (p.1 % n) [] ++ [p.2]))
      (by simpa using hlen) j
    by_cases hj : p.1 % n = j
    · subst hj
      rw [List.foldl_cons, h1, getD_list_set_self bs _ _ hk]
      simp [List.append_assoc]
    · rw [List.foldl_cons, h1, getD_list_set_ne bs _ _ _ hj]
      simp [List.filter_cons, hj]

theorem flatten_filter_nonempty {α : Type} (bs : List (List α)) :
    ((bs.filter (fun b => !(b.length == 0))).flatten) = bs.flatten := by
  induction bs with
  | nil => rfl
  | cons b t ih =>
    cases b with
    | nil => simpa using ih
    | cons x xs => simpa using ih

/-- Claim C8: `distribute` places item i into bucket `i mod n`, drops the
buckets left empty, and the concatenation of the returned buckets is a
permutation of the input (every item occurs exactly once). -/
theorem c8_distribute_round_robin {α : Type} (items : List α) (n : Nat)
    (hn : 0 < n) :
    (∀ (i : Nat) (hi : i < items.length),
        items.get ⟨i, hi⟩ ∈ (distributeBatches items n).getD (i % n) []) ∧
    (∀ b ∈ distribute items n, b ≠ []) ∧
    ((distribute items n).flatten).Perm items := by
  refine ⟨?_, ?_, ?_⟩
  · intro i hi
    have h := distributeBatches_foldl_getD n hn items.enum
      (List.replicate n []) (by simp) (i % n)
    rw [distributeBatches, h, getD_replicate_nil, List.nil_append]
    refine List.mem_map.mpr ⟨(i, items.get ⟨i, hi⟩), ?_, rfl⟩
    refine List.mem_filter.mpr ⟨?_, by simp⟩
    exact List.mk_mem_enum_iff_getElem?.mpr
      (by simp [List.getElem?_eq_getElem hi, List.get_eq_getElem])
  · intro b hb
    have h := (List.mem_filter.mp hb).2
    intro hbnil
    rw [hbnil] at h
    simp at h
  · have h1 : (distribute items n).flatten = (distributeBatches items n).flatten :=
      flatten_filter_nonempty _
    have h2 := distributeBatches_foldl_flatten_perm n hn items.enum
      (List.replicate n []) (by simp)
    rw [h1, distributeBatches]
    refine h2.trans ?_
    simp [flatten_replicate_nil, List.enum_map_snd]

/-- Witness for C8: nine items over four workers give batch sizes
3, 2, 2, 2 and the merged batches are a permutation of the input. -/
theorem c8_witness :
    (0 < 4) ∧
    ((distribute itemsNine 4).map List.length = [3, 2, 2, 2]) ∧
    ((distribute itemsNine 4).flatten).Perm itemsNine :=
  ⟨by decide, by decide, (c8_distribute_round_robin itemsNine 4 (by decide)).2.2⟩

/-- Claim C1, counterexample: the claim says the declared return
annotation must be a supertype of (or equal to) the runtime type of the
produced value and that a mismatch raises.  For a function annotated
`bool` that returns the int 5, the annotation is not a supertype of the
runtime type (`issubclass(int, bool)` is false), yet `Transformer.do`
raises nothing, because the source checks
`issubclass(expected, actual)` — the reversed direction. -/
theorem c1_counterexample :
    issubclass (typeOf (PyVal.int 5)) fnBoolInt.retAnn = false ∧
    (transformerDo fnBoolInt elemDict Option.none).2 = Option.none := by
  decide

/-- Claim C1 as amended: after the function result is produced, the
declared return annotation must be a subclass of (or equal to) the
concrete runtime type of the produced value; a mismatch in that direction
raises the wrapped contract error, and in every case the result value is
assigned to `element.output`. -/
theorem c1_transformer_return_type_check (t : TransFn) (e : Element)
    (m : Option Meta) (v : PyVal)
    (hf : t.f e.input e.output m = Except.ok v) :
    ((transformerDo t e m).2 = Option.none ↔
      issubclass t.retAnn (typeOf v) = true) ∧
    (issubclass t.retAnn (typeOf v) = false →
      (transformerDo t e m).2 =
        Option.some
          (PyExc.mk ExcKind.generic
            ("Could not type check output: " ++
              typeCheckInnerMsg t.name t.retAnn (typeOf v)))) ∧
    (transformerDo t e m).1 = { e with output := v } := by
  unfold transformerDo
  rw [hf]
  unfold verifyFnOutput
  cases hc : issubclass t.retAnn (typeOf v) <;> simp [hc]

/-- Witness for C1: a function annotated `dict` returning a dict
succeeds, and a function annotated `list` returning a dict raises the
wrapped contract error. -/
theorem c1_witness :
    (transformerDo fnDictDict elemDict Option.none).2 = Option.none ∧
    (transformerDo fnListDict elemDict Option.none).2 =
      Option.some
        (PyExc.mk ExcKind.generic
          ("Could not type check output: " ++
            typeCheckInnerMsg fnListDict.name fnListDict.retAnn PyType.dictT)) :=
  ⟨((c1_transformer_return_type_check fnDictDict elemDict Option.none
      (PyVal.dict [(("a"), 1)]) rfl).1).mpr (by decide),
    (c1_transformer_return_type_check fnListDict elemDict Option.none
      (PyVal.dict [(("a"), 1)]) rfl).2.1 (by decide)⟩

/-- Claim C9: `Transformer.do` assigns the function result to
`element.output` before the return-type check, so when the check fails
the raised error leaves the offending value in `element.output`. -/
theorem c9_transformer_assigns_before_check (t : TransFn) (e : Element)
    (m : Option Meta) (v : PyVal)
    (hf : t.f e.input e.output m = Except.ok v)
    (hbad : issubclass t.retAnn (typeOf v) = false) :
    (transformerDo t e m).1.output = v ∧
    (transformerDo t e m).2 ≠ Option.none := by
  unfold transformerDo
  rw [hf]
  unfold verifyFnOutput
  simp [hbad]

/-- Witness for C9: the failing `list`-annotated call left the dict it
produced in `element.output`. -/
theorem c9_witness :
    (transformerDo fnListDict elemDict Option.none).1.output =
      PyVal.dict [(("a"), 1)] ∧
    (transformerDo fnListDict elemDict Option.none).2 ≠ Option.none :=
  c9_transformer_assigns_before_check fnListDict elemDict Option.none
    (PyVal.dict [(("a"), 1)]) rfl (by decide)

theorem foldl_addNotice_eq (l : List Notice) (e : Element) :
    l.foldl addNotice e = { e with notices := e.notices ∪ l.toFinset } := by
  induction l generalizing e with
  | nil => simp
  | cons a l ih =>
    rw [List.foldl_cons, ih]
    unfold addNotice
    congr 1
    · ext nt
      simp only [Finset.mem_union, Finset.mem_insert, List.toFinset_cons,
        List.mem_toFinset]
      tauto

theorem anyChainLoop_inr_length (m : Option Meta) (evs : List EventM) :
    ∀ (e e' : Element) (excs : List PyExc),
      anyChainLoop m evs e = Sum.inr (e', excs) → excs.length = evs.length := by
  induction evs with
  | nil =>
    intro e e' excs h
    simp only [anyChainLoop, Sum.inr.injEq, Prod.mk.injEq] at h
    rw [← h.2]
    rfl
  | cons ev evs ih =>
    intro e e' excs h
    simp only [anyChainLoop] at h
    split at h
    · exact absurd h (by simp)
    · split at h
      · exact absurd h (by simp)
      · next e2 excs2 hrec =>
          simp only [Sum.inr.injEq, Prod.mk.injEq] at h
          rw [← h.2]
          simp [ih _ _ _ hrec]

/-- Claim C2, counterexample: a one-step AnyChain whose only step (a
`list`-annotated Transformer returning a dict) raises: all steps raised,
yet the element handed back is not unchanged — the failed attempt already
mutated `element.output` in place before raising. -/
theorem c2_counterexample :
    (transformerEvent fnListDict elemDict Option.none).2.isSome = true ∧
    (anyChainDo [transformerEvent fnListDict] elemDict Option.none).1.output ≠
      elemDict.output := by
  decide

/-- Claim C2 as amended: when every step of an AnyChain raises, the
element handed back is the same (threaded) element object, carrying one
ERROR notice per failed step that names the step position index and the
captured error; the input/output fields are exactly those left by the
failed in-place attempts (not restored to the pre-call values), and with
fresh, pairwise distinct notice messages exactly N notices are added.
The empty chain is the special case `excs = []`: the element comes back
unchanged with no notices added. -/
theorem c2_anychain_all_fail (evs : List EventM) (e e' : Element)
    (excs : List PyExc) (m : Option Meta)
    (h : anyChainLoop m evs e = Sum.inr (e', excs)) :
    anyChainDo evs e m = (addAnyChainNotices e' excs, Option.none) ∧
    excs.length = evs.length ∧
    (anyChainDo evs e m).1.notices =
      e'.notices ∪ (excs.enum.map (fun p => anyChainNotice p.1 p.2)).toFinset ∧
    (∀ (i : Nat) (hi : i < excs.length),
        anyChainNotice i (excs.get ⟨i, hi⟩) ∈ (anyChainDo evs e m).1.notices) ∧
    (anyChainDo evs e m).1.input = e'.input ∧
    (anyChainDo evs e m).1.output = e'.output ∧
    ((excs.enum.map (fun p => anyChainNotice p.1 p.2)).Nodup →
      (∀ nt ∈ excs.enum.map (fun p => anyChainNotice p.1 p.2), nt ∉ e'.notices) →
      (anyChainDo evs e m).1.notices.card = e'.notices.card + excs.length) := by
  have hdo : anyChainDo evs e m = (addAnyChainNotices e' excs, Option.none) := by
    unfold anyChainDo
    rw [h]
  have hfold : addAnyChainNotices e' excs =
      { e' with notices :=
          e'.notices ∪ (excs.enum.map (fun p => anyChainNotice p.1 p.2)).toFinset } := by
    unfold addAnyChainNotices
    exact foldl_addNotice_eq _ _
  refine ⟨hdo, anyChainLoop_inr_length m evs e e' excs h, ?_, ?_, ?_, ?_, ?_⟩
  · rw [hdo, hfold]
  · intro i hi
    rw [hdo, hfold]
    refine Finset.mem_union_right _ ?_
    rw [List.mem_toFinset]
    refine List.mem_map.mpr ⟨(i, excs.get ⟨i, hi⟩), ?_, rfl⟩
    exact List.mk_mem_enum_iff_getElem?.mpr
      (by simp [List.getElem?_eq_getElem hi, List.get_eq_getElem])
  · rw [hdo, hfold]
  · rw [hdo, hfold]
  · intro hnd hfresh
    rw [hdo, hfold]
    have hdisj :
        Disjoint e'.notices
          ((excs.enum.map (fun p => anyChainNotice p.1 p.2)).toFinset) := by
      rw [Finset.disjoint_right]
      intro nt hnt
      exact hfresh nt (List.mem_toFinset.mp hnt)
    rw [Finset.card_union_of_disjoint hdisj, List.toFinset_card_of_nodup hnd]
    simp

set_option maxRecDepth 4000 in
/-- Witness for C2 (amended) at the concrete one-step failing chain. -/
theorem c2_witness :
    anyChainDo [transformerEvent fnListDict] elemDict Option.none =
      (addAnyChainNotices { elemDict with output := PyVal.dict [(("a"), 1)] }
          [PyExc.mk ExcKind.generic
            ("Could not type check output: " ++
              typeCheckInnerMsg ("fn_ld") PyType.listT PyType.dictT)],
        Option.none) :=
  (c2_anychain_all_fail [transformerEvent fnListDict] elemDict
    { elemDict with output := PyVal.dict [(("a"), 1)] }
    [PyExc.mk ExcKind.generic
      ("Could not type check output: " ++
        typeCheckInnerMsg ("fn_ld") PyType.listT PyType.dictT)]
    Option.none (by decide)).1

/-- Claim C3: `Selector.do` is a total function on elements (it never
propagates an exception) with exactly this behaviour: a chain-not-found
routing error becomes an ERROR notice on the element; an exception raised
by the resolved chain execution becomes an ERROR notice naming the chain
and the error; any other exception kind escaping tag resolution is
swallowed with no notice recorded by `Selector.do` itself (the element
keeps only whatever notice the tag property added); the element is
returned in every case. -/
theorem c3_selector_do_spec (sel : Selector) (e : Element) (m : Option Meta) :
    (∀ (e' : Element) (msg : String),
        selectorSelect sel e = (e', Except.error (SelErr.chainNotFound msg)) →
        selectorDo sel e m = addNotice e' (Notice.mk msg Level.ERROR)) ∧
    (∀ (e' : Element) (msg : String),
        selectorSelect sel e = (e', Except.error (SelErr.tagError msg)) →
        selectorDo sel e m = e') ∧
    (∀ (e' e'' : Element) (c : ChainS),
        selectorSelect sel e = (e', Except.ok c) →
        c.run e' m = (e'', Option.none) →
        selectorDo sel e m = e'') ∧
    (∀ (e' e'' : Element) (c : ChainS) (exc : PyExc),
        selectorSelect sel e = (e', Except.ok c) →
        c.run e' m = (e'', Option.some exc) →
        selectorDo sel e m =
          addNotice e''
            (Notice.mk
              ("Chain " ++ c.cls ++ " id:" ++ idStr c.id ++ " raised \x27" ++
                exc.msg ++ "\x27")
              Level.ERROR)) := by
  refine ⟨?_, ?_, ?_, ?_⟩
  · intro e' msg hsel
    unfold selectorDo
    rw [hsel]
  · intro e' msg hsel
    unfold selectorDo
    rw [hsel]
  · intro e' e'' c hsel hrun
    simp only [selectorDo, hsel, hrun]
  · intro e' e'' c exc hsel hrun
    simp only [selectorDo, hsel, hrun]

/-- Witness for C3: an element whose callable tag raises a plain
exception; `Selector.do` returns the element exactly as tag resolution
left it, adding no notice of its own. -/
theorem c3_witness :
    selectorDo selA elemTagFail Option.none = (elementTag elemTagFail).1 :=
  (c3_selector_do_spec selA elemTagFail Option.none).2.1
    (elementTag elemTagFail).1
    ("Tag of element " ++ elemTagFail.cls ++ " could not be resolved: " ++ ("boom"))
    rfl

/-- Claim C4: `Mutable.do` with a function that mutates the element in
place and returns it (the declared contract) succeeds iff the runtime
types of `input` and `output` are unchanged between the pre-snapshot and
the post state; a divergence raises the contract error whose message
names both exemplar types. -/
theorem c4_mutable_type_preservation (mf : MutFn) (e e' : Element)
    (m : Option Meta)
    (hf : mf.f e m = (e', Except.ok MutRet.sameElement))
    (hann : issubclass mf.retAnn PyType.elementT = true) :
    ((mutableDo mf e m).2 = Option.none ↔
      (typeOf e.input = typeOf e'.input ∧ typeOf e.output = typeOf e'.output)) ∧
    (typeOf e.input ≠ typeOf e'.input →
      mutableDo mf e m =
        (e', Option.some
          (PyExc.mk ExcKind.typeErr
            (mutableTypeErrMsg (typeOf e.input) (typeOf e'.input))))) ∧
    (typeOf e.input = typeOf e'.input → typeOf e.output ≠ typeOf e'.output →
      mutableDo mf e m =
        (e', Option.some
          (PyExc.mk ExcKind.typeErr
            (mutableTypeErrMsg (typeOf e.output) (typeOf e'.output))))) ∧
    (typeOf e.input = typeOf e'.input → typeOf e.output = typeOf e'.output →
      mutableDo mf e m = (e', Option.none)) := by
  unfold mutableDo
  rw [hf]
  simp only [mutRetFields, mutRetTy, verifyFnOutput, hann, if_true]
  by_cases h1 : typeOf e.input = typeOf e'.input
  · by_cases h2 : typeOf e.output = typeOf e'.output
    · simp [h1, h2]
    · simp [h1, h2]
  · simp [h1]

/-- Witness for C4: changing `input` from a dict to a list raises the
contract error naming both types; changing only a dict value succeeds. -/
theorem c4_witness :
    mutableDo mutFlipInput elemDict Option.none =
      ({ elemDict with input := PyVal.list [1] },
        Option.some
          (PyExc.mk ExcKind.typeErr
            (mutableTypeErrMsg PyType.dictT PyType.listT))) ∧
    mutableDo mutBumpValue elemDict Option.none =
      ({ elemDict with input := PyVal.dict [(("a"), 2)] }, Option.none) :=
  ⟨(c4_mutable_type_preservation mutFlipInput elemDict
      { elemDict with input := PyVal.list [1] } Option.none rfl (by decide)).2.1
      (by decide),
    (c4_mutable_type_preservation mutBumpValue elemDict
      { elemDict with input := PyVal.dict [(("a"), 2)] } Option.none rfl
      (by decide)).2.2.2 (by decide) (by decide)⟩

/-- Claim C5: `Verifier.do` executes the wrapped Changeable first and
propagates its exception unmodified; then runs the verifier function on
the resulting element; a `VerifierRaisedException` from the verifier is
converted to an ERROR notice and the element is still returned, while any
other exception kind from the verifier propagates unmodified. -/
theorem c5_verifier_do (v : VerifierS) (e : Element) (m : Option Meta) :
    (∀ (e' : Element) (exc : PyExc),
        v.chanegable e m = (e', Option.some exc) →
        verifierDo v e m = (e', Option.some exc)) ∧
    (∀ (e' e'' : Element),
        v.chanegable e m = (e', Option.none) →
        v.verifier_fn e' m = (e'', Option.none) →
        verifierDo v e m = (e'', Option.none)) ∧
    (∀ (e' e'' : Element) (msg : String),
        v.chanegable e m = (e', Option.none) →
        v.verifier_fn e' m = (e'', Option.some (PyExc.mk ExcKind.verifierRaised msg)) →
        verifierDo v e m =
          (addNotice e''
              (Notice.mk ("Verifier did raise error: " ++ msg) Level.ERROR),
            Option.none)) ∧
    (∀ (e' e'' : Element) (exc : PyExc),
        v.chanegable e m = (e', Option.none) →
        v.verifier_fn e' m = (e'', Option.some exc) →
        exc.kind ≠ ExcKind.verifierRaised →
        verifierDo v e m = (e'', Option.some exc)) := by
  refine ⟨?_, ?_, ?_, ?_⟩
  · intro e' exc hch
    unfold verifierDo
    rw [hch]
  · intro e' e'' hch hv
    simp only [verifierDo, hch, hv]
  · intro e' e'' msg hch hv
    simp only [verifierDo, hch, hv, if_true]
  · intro e' e'' exc hch hv hk
    simp only [verifierDo, hch, hv, if_neg hk]

/-- Witness for C5: a verifier raising `VerifierRaisedException` is
downgraded to an ERROR notice and the element is returned. -/
theorem c5_witness :
    verifierDo verVre elemDict Option.none =
      (addNotice elemDict
          (Notice.mk ("Verifier did raise error: " ++ ("bad value")) Level.ERROR),
        Option.none) :=
  (c5_verifier_do verVre elemDict Option.none).2.2.1 elemDict elemDict
    ("bad value") rfl rfl

/-- Claim C6: for an element with a non-callable tag, `Selector.select`
follows the four-case decision table over (tag present/absent, default
chain present/absent); in particular a tag registered in the chain map
always selects exactly that chain, whether or not a default is present. -/
theorem c6_selector_select_table (sel : Selector) (e : Element)
    (t : Option String) (h : e.tagSpec = TagSpec.static t) :
    ((selectorSelect sel e).1 = e) ∧
    (t = Option.none → selectorChainsGet sel.chains Option.none = Option.none →
      (selectorSelect sel e).2 =
        Except.error
          (SelErr.chainNotFound ("Deafult (None) Chain was not registered."))) ∧
    (∀ dc, t = Option.none →
      selectorChainsGet sel.chains Option.none = Option.some dc →
      (selectorSelect sel e).2 = Except.ok dc) ∧
    (∀ s, t = Option.some s →
      selectorChainsGet sel.chains Option.none = Option.none →
      selectorChainsGet sel.chains (Option.some s) = Option.none →
      (selectorSelect sel e).2 =
        Except.error
          (SelErr.chainNotFound
            ("Chain with tag \x27" ++ s ++ "\x27 was not registered."))) ∧
    (∀ s dc, t = Option.some s →
      selectorChainsGet sel.chains Option.none = Option.some dc →
      selectorChainsGet sel.chains (Option.some s) = Option.none →
      (selectorSelect sel e).2 = Except.ok dc) ∧
    (∀ s c, t = Option.some s →
      selectorChainsGet sel.chains (Option.some s) = Option.some c →
      (selectorSelect sel e).2 = Except.ok c) := by
  refine ⟨?_, ?_, ?_, ?_, ?_, ?_⟩
  · unfold selectorSelect elementTag
    rw [h]
    rcases t with _ | s
    · rcases hd : selectorChainsGet sel.chains Option.none with _ | dc <;> simp [hd]
    · rcases hd : selectorChainsGet sel.chains Option.none with _ | dc <;>
        rcases hs : selectorChainsGet sel.chains (Option.some s) with _ | c <;>
          simp [hd, hs]
  · intro ht hd
    subst ht
    simp only [selectorSelect, elementTag, h, hd]
  · intro dc ht hd
    subst ht
    simp only [selectorSelect, elementTag, h, hd]
  · intro s ht hd hs
    subst ht
    simp only [selectorSelect, elementTag, h, hd, hs]
  · intro s dc ht hd hs
    subst ht
    simp only [selectorSelect, elementTag, h, hd, hs]
  · intro s c ht hs
    subst ht
    rcases hd : selectorChainsGet sel.chains Option.none with _ | dc <;>
      simp only [selectorSelect, elementTag, h, hd, hs]

/-- Witness for C6: the element tagged "a" selects exactly the chain
registered under "a", and the element comes back untouched. -/
theorem c6_witness :
    (selectorSelect selA elemTagA).2 = Except.ok chainA ∧
    (selectorSelect selA elemTagA).1 = elemTagA :=
  ⟨(c6_selector_select_table selA elemTagA (Option.some ("a")) rfl).2.2.2.2.2
      ("a") chainA rfl rfl,
    (c6_selector_select_table selA elemTagA (Option.some ("a")) rfl).1⟩

/-- Claim C10: on a successful `Mutable.do` call the object handed back
is the live element that was passed in (in whatever state the function
left it), regardless of what object the function returned; the
element-type and return-annotation checks are evaluated on the returned
object, which is then discarded. -/
theorem c10_mutable_returns_live_element (mf : MutFn) (e e' : Element)
    (m : Option Meta) (ret : MutRet)
    (hf : mf.f e m = (e', Except.ok ret)) :
    ((mutableDo mf e m).1 = e') ∧
    (∀ e2, ret = MutRet.otherElement e2 →
      ((mutableDo mf e m).2 = Option.none ↔
        (issubclass mf.retAnn PyType.elementT = true ∧
          typeOf e.input = typeOf e2.input ∧
          typeOf e.output = typeOf e2.output))) := by
  constructor
  · simp only [mutableDo, hf]
    rcases ret with _ | e2 | ty
    · simp only [mutRetFields]
      split
      · rfl
      · split
        · rfl
        · split <;> rfl
    · simp only [mutRetFields]
      split
      · rfl
      · split
        · rfl
        · split <;> rfl
    · rfl
  · intro e2 hret
    subst hret
    unfold mutableDo
    rw [hf]
    simp only [mutRetFields, mutRetTy]
    unfold verifyFnOutput
    by_cases hann : issubclass mf.retAnn PyType.elementT = true
    · simp only [hann, if_true]
      by_cases h1 : typeOf e.input = typeOf e2.input
      · by_cases h2 : typeOf e.output = typeOf e2.output
        · simp [h1, h2]
        · simp [h1, h2]
      · simp [h1]
    · simp [hann]

/-- Witness for C10: the function rewrote the live element input to a
list but returned a fresh copy of the original element; all checks pass
on the copy, yet the caller receives the mutated live element, which
differs from the copy. -/
theorem c10_witness :
    (mutableDo mutOtherRet elemDict Option.none).1 =
      { elemDict with input := PyVal.list [3] } ∧
    (mutableDo mutOtherRet elemDict Option.none).2 = Option.none ∧
    ({ elemDict with input := PyVal.list [3] } : Element) ≠ elemDict :=
  ⟨(c10_mutable_returns_live_element mutOtherRet elemDict
      { elemDict with input := PyVal.list [3] } Option.none
      (MutRet.otherElement elemDict) rfl).1,
    ((c10_mutable_returns_live_element mutOtherRet elemDict
      { elemDict with input := PyVal.list [3] } Option.none
      (MutRet.otherElement elemDict) rfl).2 elemDict rfl).mpr
      ⟨by decide, by decide, by decide⟩,
    by decide⟩

end Ourtransform
